import Mathlib

/-!
# mARCHCode core — shallow embedding and verification

This file embeds the control-plane core of the mARCHCode repository in Lean 4
and proves (or refutes) the frozen specification claims about it.

Embedded components (translated from the Python sources):
* `core/error_policy.py`   — `ErrorCategory`, `map_error_to_next_action`
* `core/types.py`          — `MetaBlock`, `PatchBlock`, `PatchBlock.append_history`
* `core/decision_router.py`— `Action`, `Decision`, `_heuristic_reason_split`,
  `_collect_reasons`, `route_after_checks`
* `core/self_dev_policy.py`— policy records and `SelfDevPolicy.evaluate_patch`
  (with an executable model of Python's `fnmatch.fnmatch`)
* `core/fs_apply.py`       — `_split_block`, `_extract_between_markers`,
  `apply_patchblock_to_file` (file system modelled as the content of the single
  target file; the SHA-256/12-hex content hash is an abstract function
  parameter, assumed injective where a claim needs hash equality to coincide
  with content equality)
* `core/orchestrator.py`   — `run_patch_local` (audit archiving modelled as a
  log of calls; the injected backend adapters modelled as an event list)
* `scripts/rollback_to_last_green.py` — `main` (git and the file system
  modelled as an abstract environment; the executed state-changing commands
  are collected in a trace)

Python `str` is modelled as Lean `String`, Python `int` as `Int` (arbitrary
precision in both), `None`-able fields as `Option`, raised exceptions as
`Except`.  Python's `x or ""` on an optional string is `Option.getD x ""`
composed with the fact that an empty string is falsy, which coincides with
`getD` whenever the wrapped value is `""`.
-/

namespace MArchCode

/-! ## core/error_policy.py -/

/-- `ErrorCategory` from `core/error_policy.py` (a closed `str` enum). -/
inductive ErrorCategory where
  | SYNTAX
  | MODULE_INCOHERENCE
  | POLICY_VIOLATION
  | FATAL
  | UNKNOWN
  deriving DecidableEq, Repr

/-- The `.value` string of each `ErrorCategory` member. -/
def ErrorCategory.value : ErrorCategory → String
  | .SYNTAX => "syntax_error"
  | .MODULE_INCOHERENCE => "module_incoherence"
  | .POLICY_VIOLATION => "policy_violation"
  | .FATAL => "fatal"
  | .UNKNOWN => "unknown"

/-- `map_error_to_next_action` from `core/error_policy.py`:
category plus policy mode to one of `"apply" | "retry" | "rollback"`.
The Python default for `policy_mode` is `"enforce"`; callers here pass it
explicitly. -/
def map_error_to_next_action (category : ErrorCategory) (policy_mode : String) : String :=
  if category = ErrorCategory.SYNTAX then "retry"
  else if category = ErrorCategory.MODULE_INCOHERENCE then "retry"
  else if category = ErrorCategory.POLICY_VIOLATION then
    if policy_mode = "enforce" then "rollback" else "retry"
  else if category = ErrorCategory.FATAL then "rollback"
  else "retry"

/-! ## core/types.py -/

/-- `MetaBlock` from `core/types.py` (all fields optional, default `None`). -/
structure MetaBlock where
  bus_message_id : Option String
  module : Option String
  file : Option String
  role : Option String
  plan_line_id : Option String
  status_agent_file_checker : Option String
  status_agent_module_checker : Option String
  comment_agent_file_checker : Option String
  comment_agent_module_checker : Option String
  timestamp : Option String
  commit_sha : Option String
  deriving DecidableEq, Repr

/-- A `MetaBlock` with every field `None`, mirroring the Python defaults. -/
def MetaBlock.empty : MetaBlock :=
  ⟨none, none, none, none, none, none, none, none, none, none, none⟩

/-- `PatchBlock` from `core/types.py`.  `history_ext` holds structured dict
entries in Python; they are modelled as association lists. -/
structure PatchBlock where
  code : String
  meta : MetaBlock
  patch_id : String
  version : Int
  source_agent : Option String
  global_status : Option String
  next_action : Option String
  warning_level : Option Int
  previous_hash : Option String
  error_trace : Option String
  fatal_error : Option String
  history : List String
  history_ext : List (List (String × String))
  error_category : Option ErrorCategory
  deriving DecidableEq, Repr

/-- `PatchBlock.append_history` from `core/types.py`: `self.history.append(line)`. -/
def PatchBlock.append_history (pb : PatchBlock) (line : String) : PatchBlock :=
  { pb with history := pb.history ++ [line] }

/-- Convenience constructor matching the Python dataclass defaults apart from
`code` and `meta` (the `patch_id` default is random in Python, fixed here). -/
def PatchBlock.mk0 (code : String) (meta : MetaBlock) : PatchBlock :=
  ⟨code, meta, "PATCH-00000000", 1, none, none, none, none, none, none, none, [], [], none⟩

/-! ## core/decision_router.py -/

/-- `Action` from `core/decision_router.py`. -/
inductive Action where
  | APPLY
  | RETRY
  | ROLLBACK
  deriving DecidableEq, Repr

/-- The `.value` string of each `Action` member. -/
def Action.value : Action → String
  | .APPLY => "apply"
  | .RETRY => "retry"
  | .ROLLBACK => "rollback"

/-- `Decision` from `core/decision_router.py`. -/
structure Decision where
  action : Action
  global_status : String
  next_action : String
  reasons : List String
  summary : String
  file_comment : Option String
  module_comment : Option String
  deriving DecidableEq, Repr

/-- Separator characters of the regex `[|;\n•]+` in `_heuristic_reason_split`. -/
def isReasonSep (c : Char) : Bool :=
  c = '|' || c = ';' || c = '\n' || c = '•'

/-- Characters stripped by `part.strip(" \t-—:•")` in `_heuristic_reason_split`. -/
def isStripChar (c : Char) : Bool :=
  c = ' ' || c = '\t' || c = '-' || c = '—' || c = ':' || c = '•'

/-- Python `s.strip(chars)`: drop the given characters from both ends. -/
def stripEdges (s : String) : String :=
  String.mk (((s.toList.dropWhile isStripChar).reverse.dropWhile isStripChar).reverse)

/-- Order-preserving deduplication (the `seen`-set loop of
`_heuristic_reason_split`). -/
def dedupeAux (seen : List String) : List String → List String
  | [] => []
  | r :: rest =>
    if seen.contains r then dedupeAux seen rest
    else r :: dedupeAux (r :: seen) rest

/-- `_heuristic_reason_split` from `core/decision_router.py`: split each chunk
on `[|;\n•]+`, strip `" \t-—:•"`, keep fragments of length 1..180, dedupe
preserving order.  (Splitting on single separator characters instead of runs
only introduces empty fragments, which the length filter removes, exactly as
in the Python version.) -/
def heuristic_reason_split (chunks : List String) : List String :=
  let raw := chunks.flatMap (fun blob =>
    if blob = "" then []
    else ((blob.split isReasonSep).map stripEdges).filter
      (fun p => 0 < p.length && p.length ≤ 180))
  dedupeAux [] raw

/-- `_collect_reasons` from `core/decision_router.py`, without the optional
`reasoner` argument (`route_after_checks` calls it with `reasoner=None`).
Python `str.strip()` is modelled by `String.trim`. -/
def collect_reasons (pb : PatchBlock) : List String :=
  let fc := (pb.meta.comment_agent_file_checker.getD "").trim
  let mc := (pb.meta.comment_agent_module_checker.getD "").trim
  let fused := String.intercalate "\n" (([fc, mc]).filter (fun s => s ≠ ""))
  if fused = "" then []
  else heuristic_reason_split [fused]

/-- Python `str.lower()` (character-wise lowering; ASCII-faithful, like the
status strings this code base compares). -/
def strLower (s : String) : String :=
  String.mk (s.toList.map Char.toLower)

/-- Python truthiness of an optional string: `None` and `""` are falsy. -/
def optTruthy (o : Option String) : Bool :=
  match o with
  | none => false
  | some s => s ≠ ""

/-- Python `x or None` for an optional string: `""` collapses to `None`. -/
def noneIfEmpty (o : Option String) : Option String :=
  match o with
  | none => none
  | some s => if s = "" then none else some s

/-- Python `str(error_category)` for the `str`-mixin enum (used only inside
the human-readable summary). -/
def ErrorCategory.pyStr (c : ErrorCategory) : String :=
  "ErrorCategory." ++
    (match c with
     | .SYNTAX => "SYNTAX"
     | .MODULE_INCOHERENCE => "MODULE_INCOHERENCE"
     | .POLICY_VIOLATION => "POLICY_VIOLATION"
     | .FATAL => "FATAL"
     | .UNKNOWN => "UNKNOWN")

/-- `route_after_checks` from `core/decision_router.py`.
Side-effect free: it only reads `pb` and returns a `Decision`. -/
def route_after_checks (pb : PatchBlock) : Decision :=
  let gs := strLower (pb.global_status.getD "")
  let na := strLower (pb.next_action.getD "")
  let action :=
    match pb.error_category with
    | some ec =>
      let mapped := map_error_to_next_action ec "enforce"
      if mapped = "rollback" then Action.ROLLBACK
      else if mapped = "retry" then Action.RETRY
      else if mapped = "apply" then Action.APPLY
      else Action.RETRY
    | none =>
      if gs = "ok" ∧ na = "accept" then Action.APPLY
      else if na = "rollback" ∨ gs = "rejected" then Action.ROLLBACK
      else Action.RETRY
  let reasons := collect_reasons pb
  let summary_bits :=
    ["global_status=" ++ (if gs = "" then "∅" else gs),
     "next_action=" ++ (if na = "" then "∅" else na),
     "decision=" ++ action.value]
    ++ (if optTruthy pb.meta.status_agent_file_checker then
          ["file_checker=" ++ pb.meta.status_agent_file_checker.getD ""] else [])
    ++ (if optTruthy pb.meta.status_agent_module_checker then
          ["module_checker=" ++ pb.meta.status_agent_module_checker.getD ""] else [])
    ++ (match pb.error_category with
        | some ec => ["error_category=" ++ ec.pyStr]
        | none => [])
  let summary := String.intercalate " | " summary_bits
  { action := action
    global_status := gs
    next_action := na
    reasons := reasons
    summary := summary
    file_comment := noneIfEmpty pb.meta.comment_agent_file_checker
    module_comment := noneIfEmpty pb.meta.comment_agent_module_checker }

/-! ## Python string primitives shared by several modules -/

/-- Python `s.startswith(pre)`. -/
def strStartsWith (s pre : String) : Bool :=
  s.data.take pre.data.length == pre.data

/-- Python `s.endswith(suff)`. -/
def strEndsWith (s suff : String) : Bool :=
  s.data.reverse.take suff.data.length == suff.data.reverse

/-- Python `text.find(sub)`: index (in characters) of the first occurrence of
`needle` in `hay`, `none` when absent (`-1` in Python).  `find("") = 0`. -/
def findSub (hay needle : List Char) : Option Nat :=
  (List.range (hay.length + 1)).find? (fun i => needle.isPrefixOf (hay.drop i))

/-- `findSub` on strings. -/
def strFind (s sub : String) : Option Nat :=
  findSub s.data sub.data

/-- Python `sub in s` (substring containment). -/
def strContains (s sub : String) : Bool :=
  (strFind s sub).isSome

/-! ## Python `fnmatch.fnmatch` (POSIX case: no case folding)

`fnmatch` translates a glob to a regex: `*` matches any character sequence,
`?` any single character, `[seq]` a character set (leading `!` negates, a
`]` directly after `[` or `[!` is a literal member, `a-b` is a code-point
range, an unterminated `[` is literal). -/

/-- Membership of a character in a `[...]` body (`a-b` ranges supported). -/
def charInSet (c : Char) : List Char → Bool
  | a :: '-' :: b :: rest => (decide (a ≤ c) && decide (c ≤ b)) || charInSet c rest
  | a :: rest => c = a || charInSet c rest
  | [] => false

/-- Scan to the closing `]`, returning the set body and the remainder. -/
def splitAtRBracket : List Char → Option (List Char × List Char)
  | [] => none
  | c :: rest =>
    if c = ']' then some ([], rest)
    else
      match splitAtRBracket rest with
      | some (s, r) => some (c :: s, r)
      | none => none

theorem splitAtRBracket_length :
    ∀ {cs s r : List Char}, splitAtRBracket cs = some (s, r) → r.length < cs.length := by
  intro cs
  induction cs with
  | nil => intro s r h; simp [splitAtRBracket] at h
  | cons c rest ih =>
    intro s r h
    simp only [splitAtRBracket] at h
    split at h
    · cases h
      simp
    · split at h
      · rename_i s' r' heq
        cases h
        have := ih heq
        simp only [List.length_cons]
        omega
      · cases h

/-- Set body and remainder of a glob bracket, given the characters after `[`
(and after an optional `!`): a `]` in first position is a literal member. -/
def parseBracketBody (body : List Char) : Option (List Char × List Char) :=
  match body with
  | ']' :: rest2 =>
    match splitAtRBracket rest2 with
    | some (st, r) => some (']' :: st, r)
    | none => none
  | _ => splitAtRBracket body

theorem parseBracketBody_length {body st r : List Char}
    (h : parseBracketBody body = some (st, r)) : r.length < body.length := by
  unfold parseBracketBody at h
  split at h
  · split at h
    · rename_i rest2 _ st' r' heq
      cases h
      have := splitAtRBracket_length heq
      simp only [List.length_cons]
      omega
    · cases h
  · exact splitAtRBracket_length h

/-- Parse the part of a glob after `[`: returns (negated, set body, rest of
the pattern after the closing `]`), or `none` when the bracket never closes
(in which case `[` is a literal). -/
def parseBracket (ps : List Char) : Option (Bool × List Char × List Char) :=
  if ps.head? = some '!' then
    match parseBracketBody ps.tail with
    | some (st, r) => some (true, st, r)
    | none => none
  else
    match parseBracketBody ps with
    | some (st, r) => some (false, st, r)
    | none => none

theorem parseBracket_length {ps : List Char} {neg : Bool} {st r : List Char}
    (h : parseBracket ps = some (neg, st, r)) : r.length < ps.length := by
  unfold parseBracket at h
  split at h
  · rename_i hhd
    split at h
    · rename_i st' r' heq
      cases h
      have h1 := parseBracketBody_length heq
      have h2 : ps ≠ [] := by
        intro he
        subst he
        simp at hhd
      have h3 : ps.tail.length < ps.length := by
        cases ps
        · exact absurd rfl h2
        · simp
      omega
    · cases h
  · split at h
    · rename_i st' r' heq
      cases h
      exact parseBracketBody_length heq
    · cases h

/-- Full-match glob interpreter (the semantics of the regex produced by
`fnmatch.translate`, matched against the whole name).  Each recursive call
strictly decreases `pattern.length + name.length` (for the bracket case by
`parseBracket_length`), so a fuel strictly larger than that sum — as the
`fnmatch` wrapper supplies — never reaches the fuel-exhausted case; the fuel
makes the function structurally recursive, hence kernel-computable. -/
def fnmatchAux : Nat → List Char → List Char → Bool
  | 0, _, _ => false
  | _ + 1, [], s => s.isEmpty
  | fuel + 1, '*' :: ps, [] => fnmatchAux fuel ps []
  | fuel + 1, '*' :: ps, c :: cs =>
    fnmatchAux fuel ps (c :: cs) || fnmatchAux fuel ('*' :: ps) cs
  | _ + 1, '?' :: _, [] => false
  | fuel + 1, '?' :: ps, _ :: cs => fnmatchAux fuel ps cs
  | fuel + 1, '[' :: ps, s =>
    (match parseBracket ps with
     | some (neg, st, r) =>
       (match s with
        | [] => false
        | c :: cs => (neg != charInSet c st) && fnmatchAux fuel r cs)
     | none =>
       (match s with
        | [] => false
        | c :: cs => (c = '[') && fnmatchAux fuel ps cs))
  | _ + 1, _ :: _, [] => false
  | fuel + 1, p :: ps, c :: cs => (c = p) && fnmatchAux fuel ps cs

/-- Python `fnmatch.fnmatch(name, pat)` (POSIX `normcase` is the identity). -/
def fnmatch (name pat : String) : Bool :=
  fnmatchAux (pat.data.length + name.data.length + 1) pat.data name.data

/-! ## core/self_dev_policy.py — policy records -/

/-- `Limits` from `core/self_dev_policy.py`. -/
structure Limits where
  max_files_changed : Int
  max_loc_added : Int
  max_loc_deleted : Int
  max_patch_size_bytes : Int
  deriving DecidableEq, Repr

/-- Dataclass defaults of `Limits`. -/
def Limits.default : Limits :=
  ⟨5, 160, 80, 20000⟩

/-- `Paths` from `core/self_dev_policy.py` (named `PathsCfg` here to avoid
clashing with the file-system notion). -/
structure PathsCfg where
  forbidden : List String
  allowed : List String
  deriving DecidableEq, Repr

/-- Dataclass defaults of `Paths`. -/
def PathsCfg.default : PathsCfg :=
  ⟨["infra/**", "secrets/**"], []⟩

/-- `Markers` from `core/self_dev_policy.py` (`end` is a Lean keyword, hence
`end_`). -/
structure Markers where
  require_begin_end : Bool
  begin : String
  end_ : String
  deriving DecidableEq, Repr

/-- Dataclass defaults of `Markers`. -/
def Markers.default : Markers :=
  ⟨true, "#\x7bbegin_meta:", "#\x7bend_meta\x7d"⟩

/-- `Binaries` from `core/self_dev_policy.py`. -/
structure Binaries where
  allow_binary_changes : Bool
  forbidden_extensions : List String
  deriving DecidableEq, Repr

/-- Dataclass defaults of `Binaries`. -/
def Binaries.default : Binaries :=
  ⟨false, [".png", ".jpg", ".pdf", ".exe", ".dll", ".so"]⟩

/-- `Budgets` from `core/self_dev_policy.py`. -/
structure Budgets where
  llm_tokens_max : Int
  total_run_timeout_seconds : Int
  checker_timeout_seconds : Int
  retry_limit : Int
  deriving DecidableEq, Repr

/-- Dataclass defaults of `Budgets`. -/
def Budgets.default : Budgets :=
  ⟨0, 180, 60, 2⟩

/-- `CommitGate` from `core/self_dev_policy.py`. -/
structure CommitGate where
  require_file_checker_ok : Bool
  module_status_allow : List String
  max_partial_ok_allowed : Int
  deriving DecidableEq, Repr

/-- Dataclass defaults of `CommitGate`. -/
def CommitGate.default : CommitGate :=
  ⟨true, ["ok", "partial_ok"], 2⟩

/-- `FileStat` from `core/git_diffstats.py`. -/
structure FileStat where
  path : String
  added : Int
  deleted : Int
  deriving DecidableEq, Repr

/-- `DiffStatsData` from `core/git_diffstats.py` (the shape consumed by the
policy through the `DiffStats` protocol). -/
structure DiffStatsData where
  files_changed : Int
  loc_added : Int
  loc_deleted : Int
  patch_size_bytes : Int
  paths : List String
  has_binary : Bool
  by_file : List FileStat
  deriving DecidableEq, Repr

/-- `SelfDevPolicy` from `core/self_dev_policy.py`. -/
structure SelfDevPolicy where
  policy_id : String
  version : Int
  mode : String
  require_clone : Bool
  limits : Limits
  paths : PathsCfg
  protected_files : List String
  markers : Markers
  binaries : Binaries
  budgets : Budgets
  commit_gate : CommitGate
  notes : Option String
  deriving DecidableEq, Repr

/-- Dataclass defaults of `SelfDevPolicy`. -/
def SelfDevPolicy.default : SelfDevPolicy :=
  ⟨"SDP-0001", 1, "enforce", true, Limits.default, PathsCfg.default,
    ["core/types.py", ".github/workflows/**"], Markers.default,
    Binaries.default, Budgets.default, CommitGate.default, none⟩

/-! ## core/self_dev_policy.py — `SelfDevPolicy.evaluate_patch`

The Python method accumulates violations in order through the numbered
comment blocks 0–5 of the source; each block is one definition here and the
full list is their concatenation in source order. -/

/-- Block 0 of `evaluate_patch`: clone / branch naming rule. -/
def branch_violations (self : SelfDevPolicy) (branch_name : Option String) : List String :=
  if self.require_clone && optTruthy branch_name &&
      !strStartsWith (branch_name.getD "") "archcode-self/" then
    ["branch \x27" ++ ((branch_name.getD "") ++
      "\x27 n\x27est pas un clone autorisé (archcode-self/* requis)")]
  else []

/-- Block 1 of `evaluate_patch`: blast-radius limits. -/
def blast_violations (self : SelfDevPolicy) (diff : DiffStatsData) : List String :=
  (if diff.files_changed > self.limits.max_files_changed then
    ["files_changed=" ++ (toString diff.files_changed ++
      (" > " ++ toString self.limits.max_files_changed))]
   else [])
  ++ (if diff.loc_added > self.limits.max_loc_added then
    ["loc_added=" ++ (toString diff.loc_added ++
      (" > " ++ toString self.limits.max_loc_added))]
   else [])
  ++ (if diff.loc_deleted > self.limits.max_loc_deleted then
    ["loc_deleted=" ++ (toString diff.loc_deleted ++
      (" > " ++ toString self.limits.max_loc_deleted))]
   else [])
  ++ (if diff.patch_size_bytes > self.limits.max_patch_size_bytes then
    ["patch_size_bytes=" ++ (toString diff.patch_size_bytes ++
      (" > " ++ toString self.limits.max_patch_size_bytes))]
   else [])

/-- Block 2 of `evaluate_patch`: whitelist, forbidden and protected paths. -/
def path_violations (self : SelfDevPolicy) (diff : DiffStatsData) : List String :=
  (if self.paths.allowed ≠ [] then
    diff.paths.flatMap (fun p =>
      if !(self.paths.allowed.any (fun pat => fnmatch p pat)) then
        ["chemin non autorisé (whitelist) : " ++ p]
      else [])
   else [])
  ++ diff.paths.flatMap (fun p =>
    (if self.paths.forbidden.any (fun pat => fnmatch p pat) then
      ["chemin interdit : " ++ p]
     else [])
    ++ (if self.protected_files.any (fun pat => fnmatch p pat) then
      ["fichier protégé : " ++ p]
     else []))

/-- Block 3 of `evaluate_patch`: binary changes and forbidden extensions. -/
def binary_violations (self : SelfDevPolicy) (diff : DiffStatsData) : List String :=
  (if diff.has_binary && !self.binaries.allow_binary_changes then
    ["modification binaire détectée (non autorisée)"]
   else [])
  ++ diff.paths.flatMap (fun p =>
    self.binaries.forbidden_extensions.flatMap (fun ext =>
      if strEndsWith (strLower p) ext then
        ["extension interdite : " ++ p]
      else []))

/-- Block 4 of `evaluate_patch`: begin/end markers must appear in the code. -/
def marker_violations (self : SelfDevPolicy) (pb : PatchBlock) : List String :=
  if self.markers.require_begin_end &&
      (!strContains pb.code self.markers.begin ||
       !strContains pb.code self.markers.end_) then
    ["marqueurs #\x7bbegin_meta\x7d/#\x7bend_meta\x7d absents du patch"]
  else []

/-- Block 5 of `evaluate_patch`: commit gate (file checker, module status,
partial_ok quota). -/
def gate_violations (self : SelfDevPolicy) (pb : PatchBlock)
    (partial_ok_count_so_far : Int) : List String :=
  (if self.commit_gate.require_file_checker_ok &&
      !(strLower (pb.meta.status_agent_file_checker.getD "") == "ok") then
    ["file_checker != ok"]
   else [])
  ++ (if (strLower (pb.global_status.getD "") != "") &&
      !((self.commit_gate.module_status_allow.map strLower).contains
        (strLower (pb.global_status.getD ""))) then
    ["module_checker.status=" ++ (strLower (pb.global_status.getD "") ++
      " non autorisé par la policy")]
   else [])
  ++ (if (strLower (pb.global_status.getD "") == "partial_ok") &&
      decide (partial_ok_count_so_far ≥ self.commit_gate.max_partial_ok_allowed) then
    ["partial_ok quota dépassé (" ++ (toString partial_ok_count_so_far ++
      (" ≥ " ++ (toString self.commit_gate.max_partial_ok_allowed ++ ")")))]
   else [])

/-- The violation list `v` accumulated by `SelfDevPolicy.evaluate_patch`, in
source order. -/
def SelfDevPolicy.violations (self : SelfDevPolicy) (pb : PatchBlock)
    (diff : DiffStatsData) (branch_name : Option String)
    (partial_ok_count_so_far : Int) : List String :=
  branch_violations self branch_name
  ++ blast_violations self diff
  ++ path_violations self diff
  ++ binary_violations self diff
  ++ marker_violations self pb
  ++ gate_violations self pb partial_ok_count_so_far

/-- `SelfDevPolicy.evaluate_patch` from `core/self_dev_policy.py`:
`ok = len(v) == 0 or mode == "off" or mode == "warn"` with
`mode = (self.mode or "enforce").lower()`. -/
def SelfDevPolicy.evaluate_patch (self : SelfDevPolicy) (pb : PatchBlock)
    (diff : DiffStatsData) (branch_name : Option String)
    (partial_ok_count_so_far : Int) : Bool × List String :=
  let mode := strLower (if self.mode = "" then "enforce" else self.mode)
  let v := self.violations pb diff branch_name partial_ok_count_so_far
  (v.length == 0 || mode == "off" || mode == "warn", v)

/-! ## core/fs_apply.py -/

/-- `_BEGIN` from `core/fs_apply.py` (written `"#" + "{begin_meta:"` there). -/
def fsBEGIN : String :=
  "#" ++ "\x7bbegin_meta:"

/-- `_END` from `core/fs_apply.py`. -/
def fsEND : String :=
  "#\x7bend_meta\x7d"

/-- Python line-boundary characters recognized by `str.splitlines`. -/
def isLineBoundary (c : Char) : Bool :=
  c = '\n' || c = '\r' || c = '\x0b' || c = '\x0c' ||
  c = '\x1c' || c = '\x1d' || c = '\x1e' || c = '\x85' ||
  c = '\u2028' || c = '\u2029'

/-- Worker for `splitlines` (accumulator holds the current line reversed). -/
def splitlinesAux : List Char → List Char → List (List Char)
  | [], acc => if acc.isEmpty then [] else [acc.reverse]
  | '\r' :: '\n' :: rest, acc => acc.reverse :: splitlinesAux rest []
  | c :: rest, acc =>
    if isLineBoundary c then acc.reverse :: splitlinesAux rest []
    else splitlinesAux rest (c :: acc)

/-- Python `str.splitlines()`. -/
def splitlines (s : String) : List String :=
  (splitlinesAux s.data []).map String.mk

/-- ASCII whitespace stripped by Python `str.strip()` (further Unicode space
characters are not modelled; none occur in this code base). -/
def isPySpace (c : Char) : Bool :=
  c = ' ' || c = '\t' || c = '\n' || c = '\r' || c = '\x0b' || c = '\x0c'

/-- Python `str.strip()`. -/
def pyStrip (s : String) : String :=
  String.mk (((s.data.dropWhile isPySpace).reverse.dropWhile isPySpace).reverse)

/-- Python `s.rstrip("\n")`. -/
def rstripNewlines (s : String) : String :=
  String.mk (s.data.reverse.dropWhile (fun c => c = '\n')).reverse

/-- Python `len(s.encode("utf-8"))`. -/
def utf8Len (s : String) : Nat :=
  s.data.foldl (fun n c => n + c.utf8Size) 0

/-- `_split_block` from `core/fs_apply.py`: split the PatchBlock code into
`(begin_meta_line, marker_begin?, payload, marker_end?, end_meta_line)`.
The first line starting with `_BEGIN` opens the block, the first following
line whose `strip()` equals `_END` closes it; an inner block of at least
three lines has its first and last line treated as markers; the payload is
the remaining lines joined by `"\n"` and `rstrip("\n")`-ed.  The Python
`ValueError`s become `Except.error`. -/
def _split_block (code : String) :
    Except String (String × Option String × String × Option String × String) :=
  let lines := splitlines code
  match lines.findIdx? (fun ln => strStartsWith ln fsBEGIN) with
  | none => .error "Bloc invalide: ligne begin_meta introuvable."
  | some i_begin =>
    match (lines.drop (i_begin + 1)).findIdx? (fun ln => pyStrip ln == fsEND) with
    | none => .error "Bloc invalide: ligne end_meta introuvable."
    | some j =>
      let i_end := i_begin + 1 + j
      let inner := (lines.drop (i_begin + 1)).take j
      let markersPayload : Option String × Option String × List String :=
        if inner.length ≥ 3 then
          (some (inner.headD ""), some (inner.getLastD ""), (inner.drop 1).dropLast)
        else (none, none, inner)
      let payload := rstripNewlines (String.intercalate "\n" markersPayload.2.2)
      .ok (lines.getD i_begin "", markersPayload.1, payload, markersPayload.2.1,
        lines.getD i_end "")

/-- `_extract_between_markers` from `core/fs_apply.py`: find the first window
delimited by `m_begin` and `m_end` in `text` and return
`(payload_start, payload_end, payload)` in character indices (Python `str`
indices), or `none`. -/
def _extract_between_markers (text m_begin m_end : String) :
    Option (Nat × Nat × String) :=
  match findSub text.data m_begin.data with
  | none => none
  | some start =>
    let after_begin := start + m_begin.data.length
    let tail := text.data.drop after_begin
    match findSub tail m_end.data with
    | none => none
    | some end_rel =>
      let payload_start :=
        if (tail.take end_rel).contains '\n' then
          after_begin + tail.findIdx (fun c => c = '\n') + 1
        else after_begin
      let payload_end := after_begin + end_rel
      some (payload_start, payload_end,
        String.mk ((text.data.drop payload_start).take (payload_end - payload_start)))

/-- Result of `apply_patchblock_to_file`: the returned
`(action, bytes_written)` pair plus the two side effects — the annotated
`PatchBlock` (history line appended) and the new target-file state. -/
structure FsResult where
  action : String
  bytes_written : Nat
  pb : PatchBlock
  fs : Option String
  deriving DecidableEq, Repr

/-- `apply_patchblock_to_file` from `core/fs_apply.py`.

The file system is modelled as the content of the single target file
(`none` = file absent; `read_text` of an absent file is `""` in the source's
`if file_path.exists()` guard, and every write creates the file).  The
SHA-256 hash truncated to 12 hex characters is an abstract parameter `sha`;
where a claim needs hash equality to coincide with payload equality it is
instantiated with an injective function.  The Python `ValueError` of
`_split_block` and the `TypeError` of `Path(None)` become `Except.error`. -/
def apply_patchblock_to_file (sha : String → String) (pb : PatchBlock)
    (fs : Option String) : Except String FsResult :=
  match pb.meta.file with
  | none => .error "TypeError: meta.file is None"
  | some file_path =>
    let code := pb.code
    match _split_block code with
    | .error e => .error e
    | .ok (_begin_meta_line, marker_begin, payload_new, marker_end, _end_meta_line) =>
      let hash_new := sha payload_new
      let current := fs.getD ""
      match marker_begin, marker_end with
      | some mb, some me =>
        match _extract_between_markers current mb me with
        | some (start_idx, end_idx, payload_current) =>
          let hash_cur := sha payload_current
          if hash_cur = hash_new then
            let msg := "fs:skip markers payload_hash=" ++
              (hash_new ++ (" file=" ++ file_path))
            .ok ⟨"skip", 0, pb.append_history msg, fs⟩
          else
            let before := String.mk (current.data.take start_idx)
            let after := String.mk (current.data.drop end_idx)
            -- the source's `if not replacement.endswith("\n") and
            -- after.startswith("\n"): replacement += ""` appends the empty
            -- string, a no-op kept verbatim
            let replacement :=
              if !strEndsWith payload_new "\n" && strStartsWith after "\n" then
                payload_new ++ ""
              else payload_new
            let new_text := before ++ (replacement ++ after)
            let written := utf8Len new_text
            let msg := "fs:replace markers payload_hash_old=" ++
              (hash_cur ++ (" payload_hash_new=" ++
                (hash_new ++ (" file=" ++ file_path))))
            .ok ⟨"replace", written, pb.append_history msg, some new_text⟩
        | none =>
          let sep := if strEndsWith current "\n" || current = "" then "" else "\n"
          let new_text := current ++
            (sep ++ (code ++ (if !strEndsWith code "\n" then "\n" else "")))
          let written := utf8Len new_text - utf8Len current
          let msg := "fs:insert markers payload_hash=" ++
            (hash_new ++ (" file=" ++ file_path))
          .ok ⟨"insert", written, pb.append_history msg, some new_text⟩
      | _, _ =>
        if current = code ∨ sha current = sha code then
          let msg := "fs:skip fullfile payload_hash=" ++
            (hash_new ++ (" file=" ++ file_path))
          .ok ⟨"skip", 0, pb.append_history msg, fs⟩
        else
          let written := utf8Len code
          let msg := "fs:replace fullfile payload_hash_new=" ++
            (hash_new ++ (" file=" ++ file_path))
          .ok ⟨"replace", written, pb.append_history msg, some code⟩

/-- The identity function as an explicit collision-free model of the
truncated SHA-256 content hash. -/
def idHash : String → String :=
  fun s => s

/-! ## core/orchestrator.py -/

/-- The three injected backend callbacks of `OrchestrationAdapters`. -/
inductive BackendCall where
  | apply_and_commit
  | regenerate_with_acw
  | rollback_and_log
  deriving DecidableEq, Repr

/-- `run_patch_local` from `core/orchestrator.py`.

The upstream checkers (`run_local_checkers`, an external collaborator that
annotates the envelope before routing) are a function parameter; the
injected adapters are modelled by the list of backend calls performed; the
best-effort YAML audit archiving (`archive_patch_before` …) has no effect on
the control flow and is not modelled.  Returns the annotated PatchBlock, the
Decision handed back to the caller, and the backend calls made.  The
source's `elif not ok and policy.mode == "warn"` logging arm is dead code
(it requires `not ok` after the `if not ok:` arm already returned) and
contributes nothing. -/
def run_patch_local (checkers : PatchBlock → PatchBlock) (pb0 : PatchBlock)
    (policy : Option SelfDevPolicy) (diff_stats : Option DiffStatsData)
    (branch_name : Option String) (partial_ok_count_so_far : Int) :
    PatchBlock × Decision × List BackendCall :=
  let pb := checkers pb0
  let decision := route_after_checks pb
  let dispatched : List BackendCall :=
    if decision.action = Action.APPLY then [BackendCall.apply_and_commit]
    else if decision.action = Action.RETRY then [BackendCall.regenerate_with_acw]
    else [BackendCall.rollback_and_log]
  match policy, diff_stats with
  | some pol, some diff =>
    if decision.action = Action.APPLY then
      let okv := pol.evaluate_patch pb diff branch_name partial_ok_count_so_far
      if !okv.1 then
        let action := map_error_to_next_action ErrorCategory.POLICY_VIOLATION pol.mode
        if action = "rollback" then (pb, decision, [BackendCall.rollback_and_log])
        else if action = "retry" then (pb, decision, [BackendCall.regenerate_with_acw])
        else (pb, decision, dispatched)
      else (pb, decision, dispatched)
    else (pb, decision, dispatched)
  | _, _ => (pb, decision, dispatched)

/-! ## scripts/rollback_to_last_green.py -/

/-- The state-changing commands `main` can execute (the git helpers plus the
tar extraction); read-only commands (`rev-parse`, `status`, `tag -l`,
`rev-list`, the YAML metadata read) are not mutations and are not traced. -/
inductive GitCmd where
  | checkout (ref : String)
  | extract (archive dest : String)
  | merge_noff (sha msg : String)
  | push
  | reset_hard (sha : String)
  | push_with_lease
  deriving DecidableEq, Repr

/-- The git/file-system environment `main` consults: repository root, clean
working tree flag, the `green-*` tags sorted most recent first, tag-to-SHA
resolution, short-SHA form, and file existence. -/
structure GitEnv where
  repo_root : String
  working_tree_clean : Bool
  green_tags : List String
  tag_sha : String → String
  short_sha : String → String
  exists_file : String → Bool

/-- The parsed CLI arguments of `rollback_to_last_green.py`. -/
structure RollbackArgs where
  strategy : String
  dry_run : Bool
  no_clean_check : Bool
  deriving DecidableEq, Repr

/-- The archive path `find_last_green_target` derives for a SHA:
`<root>/.archcode/archive/patch_post_commit_<sha>.tar.gz`. -/
def archivePathFor (root sha : String) : String :=
  root ++ ("/.archcode/archive/patch_post_commit_" ++ (sha ++ ".tar.gz"))

/-- `main` from `scripts/rollback_to_last_green.py`: exit code plus the
state-changing commands actually executed (none in dry-run mode, where `run`
only prints).  Exit codes: `2` dirty working tree without
`--no-clean-check`; `1` the generic `except Exception` path (here: no
`green-*` tag, raised as `FileNotFoundError` by `find_last_green_target`);
`3` missing archive for the resolved commit; `0` success. -/
def rollback_main (env : GitEnv) (args : RollbackArgs) : Int × List GitCmd :=
  if !args.no_clean_check && !env.working_tree_clean then (2, [])
  else
    match env.green_tags with
    | [] => (1, [])
    | tag :: _ =>
      let sha := env.tag_sha tag
      let archive_path := archivePathFor env.repo_root sha
      if !env.exists_file archive_path then (3, [])
      else
        let cmds : List GitCmd :=
          if args.dry_run then []
          else
            [GitCmd.checkout sha, GitCmd.extract archive_path env.repo_root,
              GitCmd.checkout "main"]
            ++ (if args.strategy = "merge" then
                  [GitCmd.merge_noff sha ("rollback: to " ++ tag), GitCmd.push]
                else [GitCmd.reset_hard sha, GitCmd.push_with_lease])
        (0, cmds)

/-! ## String disequality helpers -/

theorem append_lit_ne {p q : String} (n : Nat)
    (hp : n ≤ p.data.length) (hq : n ≤ q.data.length)
    (hne : p.data.take n ≠ q.data.take n) (a b : String) : p ++ a ≠ q ++ b := by
  intro h
  apply hne
  have hd : p.data ++ a.data = q.data ++ b.data := by
    have := congrArg String.data h
    simpa [String.data_append] using this
  calc p.data.take n = (p.data ++ a.data).take n :=
        (List.take_append_of_le_length hp).symm
    _ = (q.data ++ b.data).take n := by rw [hd]
    _ = q.data.take n := List.take_append_of_le_length hq

theorem append_ne_lit {p q : String} (n : Nat)
    (hp : n ≤ p.data.length) (_hq : n ≤ q.data.length)
    (hne : p.data.take n ≠ q.data.take n) (a : String) : p ++ a ≠ q := by
  intro h
  apply hne
  have hd : p.data ++ a.data = q.data := by
    have := congrArg String.data h
    simpa [String.data_append] using this
  calc p.data.take n = (p.data ++ a.data).take n :=
        (List.take_append_of_le_length hp).symm
    _ = q.data.take n := by rw [hd]

theorem strStartsWith_append_false {p q : String} (n : Nat)
    (hp : n ≤ p.data.length) (hq : n ≤ q.data.length)
    (hne : p.data.take n ≠ q.data.take n) (a : String) :
    strStartsWith (p ++ a) q = false := by
  unfold strStartsWith
  rw [String.data_append]
  refine beq_eq_false_iff_ne.mpr ?_
  intro h
  apply hne
  calc p.data.take n = (p.data ++ a.data).take n :=
        (List.take_append_of_le_length hp).symm
    _ = ((p.data ++ a.data).take q.data.length).take n := by
        rw [List.take_take, Nat.min_eq_left hq]
    _ = q.data.take n := by rw [h]

/-! ## Example inputs shared by several claims -/

/-- A `PatchBlock` annotated `ok`/`accept` with no error category. -/
def pbOkAccept : PatchBlock :=
  { PatchBlock.mk0 "x = 1" MetaBlock.empty with
      global_status := some "ok", next_action := some "accept" }

/-- A `PatchBlock` that passes every policy check: markers present in the
code, file checker `ok`, no global status. -/
def pbGate : PatchBlock :=
  PatchBlock.mk0 ("#\x7bbegin_meta: x\x7d\npass\n#\x7bend_meta\x7d")
    { MetaBlock.empty with
        file := some "demo.py", status_agent_file_checker := some "ok" }

/-- A diff exceeding the default `max_files_changed = 5` by one, all other
measures zero and no touched paths. -/
def diffSix : DiffStatsData :=
  ⟨6, 0, 0, 0, [], false, []⟩

/-- The default policy with mode `"audit"` (an unrecognized mode string). -/
def polAudit : SelfDevPolicy :=
  { SelfDevPolicy.default with mode := "audit" }

/-- The default policy with mode `"off"`. -/
def polOff : SelfDevPolicy :=
  { SelfDevPolicy.default with mode := "off" }

/-- The default policy with mode `"warn"`. -/
def polWarn : SelfDevPolicy :=
  { SelfDevPolicy.default with mode := "warn" }

/-- The spec's concrete scenario PatchBlock: markers `M1`/`M2` wrapping the
given payload, framed by the begin/end meta lines, targeting `demo.py`. -/
def mkScenarioPB (payload : String) : PatchBlock :=
  PatchBlock.mk0
    ("#\x7bbegin_meta: demo\x7d\n" ++
      ("M1\n" ++ (payload ++ ("\nM2\n" ++ "#\x7bend_meta\x7d"))))
    { MetaBlock.empty with file := some "demo.py" }

/-- A well-formed target file already containing the `M1`/`M2` marker lines
around `def hello(): pass` (the state the spec expects after the first
apply). -/
def c2File : String :=
  "#\x7bbegin_meta: demo\x7d\nM1\ndef hello(): pass\nM2\n#\x7bend_meta\x7d\n"

/-- **C4.** `map_error_to_next_action` is total, always returns one of the
three action strings, never `"apply"`, and maps syntax→retry,
module_incoherence→retry, policy_violation→rollback iff mode is `"enforce"`
(else retry), fatal→rollback, unknown→retry. -/
theorem map_error_total_never_apply (c : ErrorCategory) (mode : String) :
    (map_error_to_next_action c mode = "retry" ∨
      map_error_to_next_action c mode = "rollback")
  ∧ map_error_to_next_action c mode ≠ "apply"
  ∧ map_error_to_next_action ErrorCategory.SYNTAX mode = "retry"
  ∧ map_error_to_next_action ErrorCategory.MODULE_INCOHERENCE mode = "retry"
  ∧ map_error_to_next_action ErrorCategory.POLICY_VIOLATION mode =
      (if mode = "enforce" then "rollback" else "retry")
  ∧ map_error_to_next_action ErrorCategory.FATAL mode = "rollback"
  ∧ map_error_to_next_action ErrorCategory.UNKNOWN mode = "retry" := by
  cases c <;> by_cases h : mode = "enforce" <;>
    simp_all [map_error_to_next_action]

/-- **C3.** With `error_category` unset, `route_after_checks` yields `apply`
exactly when the lowercased status pair is (`ok`, `accept`); otherwise
`rollback` exactly when `next_action` is `rollback` or `global_status` is
`rejected`; and every remaining combination yields `retry`. -/
theorem route_after_checks_fallback (pb : PatchBlock) (h : pb.error_category = none) :
    ((route_after_checks pb).action = Action.APPLY ↔
      (strLower (pb.global_status.getD "") = "ok" ∧
        strLower (pb.next_action.getD "") = "accept"))
  ∧ ((route_after_checks pb).action = Action.ROLLBACK ↔
      (¬(strLower (pb.global_status.getD "") = "ok" ∧
          strLower (pb.next_action.getD "") = "accept")
        ∧ (strLower (pb.next_action.getD "") = "rollback" ∨
            strLower (pb.global_status.getD "") = "rejected")))
  ∧ ((route_after_checks pb).action = Action.RETRY ↔
      (¬(strLower (pb.global_status.getD "") = "ok" ∧
          strLower (pb.next_action.getD "") = "accept")
        ∧ ¬(strLower (pb.next_action.getD "") = "rollback" ∨
            strLower (pb.global_status.getD "") = "rejected"))) := by
  simp only [route_after_checks, h]
  split_ifs with h1 h2 <;> simp_all

/-- Witness for C3: the concrete `ok`/`accept` block routes to `apply`. -/
theorem route_after_checks_fallback_witness :
    (route_after_checks pbOkAccept).action = Action.APPLY :=
  (route_after_checks_fallback pbOkAccept rfl).1.mpr (by decide)

/-- **C5 counterexample.** With mode `"audit"` (≠ `"enforce"`) and one real
violation, `evaluate_patch` returns `ok = False`, so
`ok = (violations empty) OR (mode ≠ enforce)` is false at this input. -/
theorem evaluate_patch_mode_claim_counterexample :
    ¬(((SelfDevPolicy.evaluate_patch polAudit pbGate diffSix none 0).1 = true) ↔
      ((SelfDevPolicy.evaluate_patch polAudit pbGate diffSix none 0).2 = [] ∨
        polAudit.mode ≠ "enforce")) := by
  decide

/-- **C5 (amended).** `evaluate_patch` returns
`ok = (violations empty) OR lowercased defaulted mode ∈ {"off","warn"}`
(not: mode ≠ "enforce"), and the violation list is computed in full
independently of the mode. -/
theorem evaluate_patch_ok_formula (self : SelfDevPolicy) (pb : PatchBlock)
    (diff : DiffStatsData) (branch_name : Option String) (n : Int) :
    ((SelfDevPolicy.evaluate_patch self pb diff branch_name n).1 = true ↔
      ((SelfDevPolicy.evaluate_patch self pb diff branch_name n).2 = [] ∨
        strLower (if self.mode = "" then "enforce" else self.mode) = "off" ∨
        strLower (if self.mode = "" then "enforce" else self.mode) = "warn"))
  ∧ (∀ m : String,
      (SelfDevPolicy.evaluate_patch { self with mode := m } pb diff branch_name n).2 =
        (SelfDevPolicy.evaluate_patch self pb diff branch_name n).2) := by
  constructor
  · simp [SelfDevPolicy.evaluate_patch, List.length_eq_zero, or_assoc]
  · intro m
    rfl

/-- **C7 (amended).** If the diff exceeds `max_files_changed` by one and no
other rule is violated, the violation list is exactly the `files_changed`
message under every mode (including `"off"`), and `ok` is true exactly when
the lowercased defaulted mode is `"off"` or `"warn"`. -/
theorem evaluate_patch_files_changed_threshold (self : SelfDevPolicy)
    (pb : PatchBlock) (diff : DiffStatsData) (branch_name : Option String)
    (n : Int)
    (hfc : diff.files_changed = self.limits.max_files_changed + 1)
    (hbr : (self.require_clone && optTruthy branch_name &&
      !strStartsWith (branch_name.getD "") "archcode-self/") = false)
    (hla : ¬diff.loc_added > self.limits.max_loc_added)
    (hld : ¬diff.loc_deleted > self.limits.max_loc_deleted)
    (hps : ¬diff.patch_size_bytes > self.limits.max_patch_size_bytes)
    (hpa : diff.paths = [])
    (hbin : (diff.has_binary && !self.binaries.allow_binary_changes) = false)
    (hmk : (self.markers.require_begin_end &&
      (!strContains pb.code self.markers.begin ||
       !strContains pb.code self.markers.end_)) = false)
    (hfk : (self.commit_gate.require_file_checker_ok &&
      !(strLower (pb.meta.status_agent_file_checker.getD "") == "ok")) = false)
    (hst : ((strLower (pb.global_status.getD "") != "") &&
      !((self.commit_gate.module_status_allow.map strLower).contains
        (strLower (pb.global_status.getD "")))) = false)
    (hpo : ((strLower (pb.global_status.getD "") == "partial_ok") &&
      decide (n ≥ self.commit_gate.max_partial_ok_allowed)) = false) :
    (SelfDevPolicy.evaluate_patch self pb diff branch_name n).2 =
      ["files_changed=" ++ (toString diff.files_changed ++
        (" > " ++ toString self.limits.max_files_changed))]
    ∧ ((SelfDevPolicy.evaluate_patch self pb diff branch_name n).1 = true ↔
        (strLower (if self.mode = "" then "enforce" else self.mode) = "off" ∨
         strLower (if self.mode = "" then "enforce" else self.mode) = "warn")) := by
  have h1 : diff.files_changed > self.limits.max_files_changed := by
    rw [hfc]
    omega
  have hv : SelfDevPolicy.violations self pb diff branch_name n =
      ["files_changed=" ++ (toString diff.files_changed ++
        (" > " ++ toString self.limits.max_files_changed))] := by
    unfold SelfDevPolicy.violations branch_violations blast_violations
      path_violations binary_violations marker_violations gate_violations
    rw [hpa, hbr, hbin, hmk, hfk, hst, hpo]
    rw [if_pos h1, if_neg hla, if_neg hld, if_neg hps]
    simp
  refine ⟨?_, ?_⟩
  · simp [SelfDevPolicy.evaluate_patch, hv]
  · simp [SelfDevPolicy.evaluate_patch, hv]

/-- Witness for C7: the default (`enforce`) policy at the concrete
over-limit diff yields exactly the `files_changed` violation and `ok = False`. -/
theorem evaluate_patch_files_changed_threshold_witness :
    (SelfDevPolicy.evaluate_patch SelfDevPolicy.default pbGate diffSix none 0).2 =
      ["files_changed=" ++ (toString diffSix.files_changed ++
        (" > " ++ toString SelfDevPolicy.default.limits.max_files_changed))]
    ∧ ((SelfDevPolicy.evaluate_patch SelfDevPolicy.default pbGate diffSix none 0).1 = true ↔
        (strLower (if SelfDevPolicy.default.mode = "" then "enforce"
            else SelfDevPolicy.default.mode) = "off" ∨
         strLower (if SelfDevPolicy.default.mode = "" then "enforce"
            else SelfDevPolicy.default.mode) = "warn")) :=
  evaluate_patch_files_changed_threshold SelfDevPolicy.default pbGate diffSix none 0
    (by decide) (by decide) (by decide) (by decide) (by decide) (by decide)
    (by decide) (by decide) (by decide) (by decide) (by decide)

/-! ### Shapes of the violation messages (for the C10 status-gate claim) -/

theorem mem_ite_singleton {c : Prop} [Decidable c] {x s : String}
    (h : s ∈ (if c then [x] else [])) : s = x := by
  split at h <;> simp_all

theorem mem_branch_violations_shape {self : SelfDevPolicy} {bn : Option String}
    {s : String} (h : s ∈ branch_violations self bn) :
    ∃ t, s = "branch \x27" ++ t := by
  unfold branch_violations at h
  exact ⟨_, mem_ite_singleton h⟩

theorem mem_blast_violations_shape {self : SelfDevPolicy} {diff : DiffStatsData}
    {s : String} (h : s ∈ blast_violations self diff) :
    (∃ t, s = "files_changed=" ++ t) ∨ (∃ t, s = "loc_added=" ++ t) ∨
    (∃ t, s = "loc_deleted=" ++ t) ∨ (∃ t, s = "patch_size_bytes=" ++ t) := by
  unfold blast_violations at h
  simp only [List.mem_append, or_assoc] at h
  rcases h with h | h | h | h
  · exact Or.inl ⟨_, mem_ite_singleton h⟩
  · exact Or.inr (Or.inl ⟨_, mem_ite_singleton h⟩)
  · exact Or.inr (Or.inr (Or.inl ⟨_, mem_ite_singleton h⟩))
  · exact Or.inr (Or.inr (Or.inr ⟨_, mem_ite_singleton h⟩))

theorem mem_path_violations_shape {self : SelfDevPolicy} {diff : DiffStatsData}
    {s : String} (h : s ∈ path_violations self diff) :
    (∃ t, s = "chemin non autorisé (whitelist) : " ++ t) ∨
    (∃ t, s = "chemin interdit : " ++ t) ∨
    (∃ t, s = "fichier protégé : " ++ t) := by
  unfold path_violations at h
  simp only [List.mem_append, or_assoc] at h
  rcases h with h | h
  · split at h
    · simp only [List.mem_flatMap] at h
      obtain ⟨p, _, hp⟩ := h
      exact Or.inl ⟨_, mem_ite_singleton hp⟩
    · simp at h
  · simp only [List.mem_flatMap] at h
    obtain ⟨p, _, hp⟩ := h
    simp only [List.mem_append] at hp
    rcases hp with hp | hp
    · exact Or.inr (Or.inl ⟨_, mem_ite_singleton hp⟩)
    · exact Or.inr (Or.inr ⟨_, mem_ite_singleton hp⟩)

theorem mem_binary_violations_shape {self : SelfDevPolicy} {diff : DiffStatsData}
    {s : String} (h : s ∈ binary_violations self diff) :
    s = "modification binaire détectée (non autorisée)" ∨
    (∃ t, s = "extension interdite : " ++ t) := by
  unfold binary_violations at h
  simp only [List.mem_append, or_assoc] at h
  rcases h with h | h
  · exact Or.inl (mem_ite_singleton h)
  · simp only [List.mem_flatMap] at h
    obtain ⟨p, _, hp⟩ := h
    obtain ⟨e, _, he⟩ := hp
    exact Or.inr ⟨_, mem_ite_singleton he⟩

theorem mem_marker_violations_shape {self : SelfDevPolicy} {pb : PatchBlock}
    {s : String} (h : s ∈ marker_violations self pb) :
    s = "marqueurs #\x7bbegin_meta\x7d/#\x7bend_meta\x7d absents du patch" := by
  unfold marker_violations at h
  exact mem_ite_singleton h

theorem mem_gate_violations_shape {self : SelfDevPolicy} {pb : PatchBlock}
    {n : Int} {s : String} (h : s ∈ gate_violations self pb n) :
    s = "file_checker != ok" ∨
    (((strLower (pb.global_status.getD "") != "") &&
      !((self.commit_gate.module_status_allow.map strLower).contains
        (strLower (pb.global_status.getD "")))) = true ∧
      s = "module_checker.status=" ++ (strLower (pb.global_status.getD "") ++
        " non autorisé par la policy")) ∨
    (∃ t, s = "partial_ok quota dépassé (" ++ t) := by
  unfold gate_violations at h
  simp only [List.mem_append, or_assoc] at h
  rcases h with h | h | h
  · exact Or.inl (mem_ite_singleton h)
  · refine Or.inr (Or.inl ?_)
    split at h
    · rename_i hc
      exact ⟨hc, by simpa using h⟩
    · simp at h
  · exact Or.inr (Or.inr ⟨_, mem_ite_singleton h⟩)

/-- **C10.** The module-status commit gate of `evaluate_patch`: a
"status not allowed" violation (the only violation beginning with
`module_checker.status=`) is produced exactly when the lowercased
`global_status` is non-empty and outside the lowercased allow list; an unset
or empty `global_status` never produces one. -/
theorem evaluate_patch_status_gate (self : SelfDevPolicy) (pb : PatchBlock)
    (diff : DiffStatsData) (branch_name : Option String) (n : Int) :
    (("module_checker.status=" ++ (strLower (pb.global_status.getD "") ++
        " non autorisé par la policy")) ∈
        (SelfDevPolicy.evaluate_patch self pb diff branch_name n).2 ↔
      (strLower (pb.global_status.getD "") ≠ "" ∧
        (self.commit_gate.module_status_allow.map strLower).contains
          (strLower (pb.global_status.getD "")) = false))
  ∧ (∀ s ∈ (SelfDevPolicy.evaluate_patch self pb diff branch_name n).2,
      strStartsWith s "module_checker.status=" = true →
      s = "module_checker.status=" ++ (strLower (pb.global_status.getD "") ++
        " non autorisé par la policy")) := by
  have hv : (SelfDevPolicy.evaluate_patch self pb diff branch_name n).2 =
      SelfDevPolicy.violations self pb diff branch_name n := rfl
  rw [hv]
  constructor
  · constructor
    · intro hmem
      unfold SelfDevPolicy.violations at hmem
      simp only [List.mem_append, or_assoc] at hmem
      rcases hmem with h | h | h | h | h | h
      · obtain ⟨t, ht⟩ := mem_branch_violations_shape h
        exact absurd ht (append_lit_ne 1 (by decide) (by decide) (by decide) _ _)
      · rcases mem_blast_violations_shape h with ⟨t, ht⟩ | ⟨t, ht⟩ | ⟨t, ht⟩ | ⟨t, ht⟩ <;>
          exact absurd ht (append_lit_ne 1 (by decide) (by decide) (by decide) _ _)
      · rcases mem_path_violations_shape h with ⟨t, ht⟩ | ⟨t, ht⟩ | ⟨t, ht⟩ <;>
          exact absurd ht (append_lit_ne 1 (by decide) (by decide) (by decide) _ _)
      · rcases mem_binary_violations_shape h with ht | ⟨t, ht⟩
        · exact absurd ht (append_ne_lit 4 (by decide) (by decide) (by decide) _)
        · exact absurd ht (append_lit_ne 1 (by decide) (by decide) (by decide) _ _)
      · have ht := mem_marker_violations_shape h
        exact absurd ht (append_ne_lit 2 (by decide) (by decide) (by decide) _)
      · rcases mem_gate_violations_shape h with ht | ⟨hc, _⟩ | ⟨t, ht⟩
        · exact absurd ht (append_ne_lit 1 (by decide) (by decide) (by decide) _)
        · simp only [Bool.and_eq_true, bne_iff_ne, Bool.not_eq_true', ne_eq] at hc
          exact ⟨hc.1, hc.2⟩
        · exact absurd ht (append_lit_ne 1 (by decide) (by decide) (by decide) _ _)
    · rintro ⟨h1, h2⟩
      have hcond : ((strLower (pb.global_status.getD "") != "") &&
          !((self.commit_gate.module_status_allow.map strLower).contains
            (strLower (pb.global_status.getD "")))) = true := by
        simp only [Bool.and_eq_true, bne_iff_ne, Bool.not_eq_true', ne_eq]
        exact ⟨h1, h2⟩
      unfold SelfDevPolicy.violations
      simp only [List.mem_append, or_assoc]
      refine Or.inr (Or.inr (Or.inr (Or.inr (Or.inr ?_))))
      unfold gate_violations
      simp only [List.mem_append, or_assoc]
      refine Or.inr (Or.inl ?_)
      rw [if_pos hcond]
      exact List.mem_singleton.mpr rfl
  · intro s hs hpre
    unfold SelfDevPolicy.violations at hs
    simp only [List.mem_append, or_assoc] at hs
    rcases hs with h | h | h | h | h | h
    · obtain ⟨t, rfl⟩ := mem_branch_violations_shape h
      rw [strStartsWith_append_false 1 (by decide) (by decide) (by decide)] at hpre
      exact absurd hpre (by simp)
    · rcases mem_blast_violations_shape h with ⟨t, rfl⟩ | ⟨t, rfl⟩ | ⟨t, rfl⟩ | ⟨t, rfl⟩ <;>
        · rw [strStartsWith_append_false 1 (by decide) (by decide) (by decide)] at hpre
          exact absurd hpre (by simp)
    · rcases mem_path_violations_shape h with ⟨t, rfl⟩ | ⟨t, rfl⟩ | ⟨t, rfl⟩ <;>
        · rw [strStartsWith_append_false 1 (by decide) (by decide) (by decide)] at hpre
          exact absurd hpre (by simp)
    · rcases mem_binary_violations_shape h with rfl | ⟨t, rfl⟩
      · exact absurd hpre (by decide)
      · rw [strStartsWith_append_false 1 (by decide) (by decide) (by decide)] at hpre
        exact absurd hpre (by simp)
    · have ht := mem_marker_violations_shape h
      subst ht
      exact absurd hpre (by decide)
    · rcases mem_gate_violations_shape h with rfl | ⟨_, rfl⟩ | ⟨t, rfl⟩
      · exact absurd hpre (by decide)
      · rfl
      · rw [strStartsWith_append_false 1 (by decide) (by decide) (by decide)] at hpre
        exact absurd hpre (by simp)

/-- **C7 counterexample.** Under mode `"off"` the same over-limit diff still
returns the `files_changed` violation in the list (with `ok = True`),
contradicting "no forced violations under `off`". -/
theorem evaluate_patch_off_keeps_violations :
    (SelfDevPolicy.evaluate_patch polOff pbGate diffSix none 0).1 = true
    ∧ (SelfDevPolicy.evaluate_patch polOff pbGate diffSix none 0).2 ≠ [] := by
  decide

/-- Witness for C10: a `rejected` status (not in the default allow list)
produces the status violation. -/
theorem evaluate_patch_status_gate_witness :
    ("module_checker.status=" ++
      (strLower (({ pbGate with global_status := some "rejected" } :
          PatchBlock).global_status.getD "") ++
        " non autorisé par la policy")) ∈
      (SelfDevPolicy.evaluate_patch SelfDevPolicy.default
        { pbGate with global_status := some "rejected" } diffSix none 0).2 :=
  (evaluate_patch_status_gate SelfDevPolicy.default
    { pbGate with global_status := some "rejected" } diffSix none 0).1.mpr
    ⟨by decide, by decide⟩

/-- **C1 (code-bug demonstration).** In the spec's own scenario — target
file absent, markers `M1`/`M2` wrapping `def hello(): pass` — the first
apply returns `insert`, but the second apply of the *unchanged* PatchBlock
returns `replace` with nonzero bytes written and a rewritten file, not
`("skip", 0)`: `_extract_between_markers` keeps the newline that precedes
the end marker inside the current payload while `_split_block` strips it
from the new payload (`rstrip("\n")`), so the hashes differ and the block is
rewritten on every re-application after an insert. -/
theorem apply_twice_scenario_not_idempotent :
    ((apply_patchblock_to_file idHash (mkScenarioPB "def hello(): pass")
        none).toOption.bind
      (fun r1 =>
        (apply_patchblock_to_file idHash (mkScenarioPB "def hello(): pass")
            r1.fs).toOption.map
          (fun r2 => (r1.action, r2.action, r2.bytes_written == 0,
            r2.fs == r1.fs)))) =
    some ("insert", "replace", false, false) := by
  decide

/-- **C2 (code-bug demonstration).** Applying a changed payload
(`def hello(): return 1`) to a well-formed file whose marker lines `M1`/`M2`
wrap `def hello(): pass` returns `replace`, but the resulting file glues the
payload to the end marker (`def hello(): return 1M2`): the input file has an
`M2` line and the output file has none, so the `M2` marker line does not
remain as before. -/
theorem apply_replace_glues_end_marker :
    (splitlines c2File).contains "M2" = true
  ∧ (apply_patchblock_to_file idHash (mkScenarioPB "def hello(): return 1")
        (some c2File)).toOption.map
      (fun r => (r.action, r.fs, (splitlines (r.fs.getD "")).contains "M2")) =
    some ("replace",
      some "#\x7bbegin_meta: demo\x7d\nM1\ndef hello(): return 1M2\n#\x7bend_meta\x7d\n",
      false) := by
  refine ⟨by decide, by decide⟩

/-- Supporting result delimiting the C1 defect: in *full-file* mode (no
markers in the block) re-application is idempotent as specified — whatever
the first apply did, the second apply of the unchanged block returns
`("skip", 0)` and leaves the file as it was, for *any* hash function.  The
idempotence failure is specific to marker mode after an `insert`. -/
theorem fullfile_second_apply_skips (sha : String → String) (pb : PatchBlock)
    (fs : Option String) (r1 r2 : FsResult)
    (bl pl el : String)
    (hsplit : _split_block pb.code = .ok (bl, none, pl, none, el))
    (h1 : apply_patchblock_to_file sha pb fs = .ok r1)
    (h2 : apply_patchblock_to_file sha pb r1.fs = .ok r2) :
    r2.action = "skip" ∧ r2.bytes_written = 0 ∧ r2.fs = r1.fs := by
  revert h1 h2
  cases hf : pb.meta.file with
  | none =>
    intro h1
    simp [apply_patchblock_to_file, hf] at h1
  | some fp =>
    intro h1 h2
    simp only [apply_patchblock_to_file, hf, hsplit] at h1 h2
    split at h1
    · cases h1
      split at h2
      · cases h2
        exact ⟨rfl, rfl, rfl⟩
      · rename_i hc1 hc2
        exact absurd hc1 hc2
    · cases h1
      rename_i hc1
      split at h2
      · cases h2
        exact ⟨rfl, rfl, rfl⟩
      · rename_i hc2
        exact absurd (Or.inl rfl) hc2

/-- **C9.** `apply_patchblock_to_file` never rewrites the envelope's
`global_status`/`next_action` (nor its code or meta) and appends exactly one
history line, so the prior history is a prefix of the new one.  (The other
two core operations, `route_after_checks` and `SelfDevPolicy.evaluate_patch`,
perform no write to the envelope at all: their source only reads `pb`, and
accordingly their embeddings return only a `Decision` resp. a
`(Bool × List String)` pair.) -/
theorem apply_preserves_status_appends_history (sha : String → String)
    (pb : PatchBlock) (fs : Option String) (r : FsResult)
    (h : apply_patchblock_to_file sha pb fs = .ok r) :
    r.pb.global_status = pb.global_status ∧
    r.pb.next_action = pb.next_action ∧
    r.pb.code = pb.code ∧
    r.pb.meta = pb.meta ∧
    ∃ m, r.pb.history = pb.history ++ [m] := by
  revert h
  cases hf : pb.meta.file with
  | none =>
    intro h
    simp [apply_patchblock_to_file, hf] at h
  | some fp =>
    cases hsb : _split_block pb.code with
    | error e =>
      intro h
      simp [apply_patchblock_to_file, hf, hsb] at h
    | ok q =>
      obtain ⟨bl, mb, pl, me, el⟩ := q
      intro h
      simp only [apply_patchblock_to_file, hf, hsb] at h
      cases mb with
      | none =>
        simp only [] at h
        split at h
        · cases h
          exact ⟨rfl, rfl, rfl, rfl, _, rfl⟩
        · cases h
          exact ⟨rfl, rfl, rfl, rfl, _, rfl⟩
      | some mbv =>
        cases me with
        | none =>
          simp only [] at h
          split at h
          · cases h
            exact ⟨rfl, rfl, rfl, rfl, _, rfl⟩
          · cases h
            exact ⟨rfl, rfl, rfl, rfl, _, rfl⟩
        | some mev =>
          simp only [] at h
          cases hex : _extract_between_markers (fs.getD "") mbv mev with
          | none =>
            simp only [hex] at h
            cases h
            exact ⟨rfl, rfl, rfl, rfl, _, rfl⟩
          | some t =>
            obtain ⟨si, t2⟩ := t
            obtain ⟨ei, pc⟩ := t2
            simp only [hex] at h
            split at h
            · cases h
              exact ⟨rfl, rfl, rfl, rfl, _, rfl⟩
            · cases h
              exact ⟨rfl, rfl, rfl, rfl, _, rfl⟩

/-- Witness for C9: the first scenario apply leaves the status fields
untouched and appends one history line. -/
theorem apply_preserves_status_appends_history_witness :
    ((apply_patchblock_to_file idHash (mkScenarioPB "def hello(): pass")
        none).toOption.getD ⟨"", 0, PatchBlock.mk0 "" MetaBlock.empty, none⟩).pb.global_status =
      (mkScenarioPB "def hello(): pass").global_status
    ∧ ((apply_patchblock_to_file idHash (mkScenarioPB "def hello(): pass")
        none).toOption.getD ⟨"", 0, PatchBlock.mk0 "" MetaBlock.empty, none⟩).pb.next_action =
      (mkScenarioPB "def hello(): pass").next_action
    ∧ ∃ m, ((apply_patchblock_to_file idHash (mkScenarioPB "def hello(): pass")
        none).toOption.getD ⟨"", 0, PatchBlock.mk0 "" MetaBlock.empty, none⟩).pb.history =
      (mkScenarioPB "def hello(): pass").history ++ [m] := by
  have h := apply_preserves_status_appends_history idHash
    (mkScenarioPB "def hello(): pass") none
    ((apply_patchblock_to_file idHash (mkScenarioPB "def hello(): pass")
        none).toOption.getD ⟨"", 0, PatchBlock.mk0 "" MetaBlock.empty, none⟩)
    (by rfl)
  exact ⟨h.1, h.2.1, h.2.2.2.2⟩

/-- **C6.** Every run of `run_patch_local` invokes exactly one backend
callback exactly once (the dispatched-call list has length one), and the
`Decision` returned to the caller is the router's decision for the
checker-annotated envelope, its `action` field unchanged — even when the
policy gate re-mapped the dispatched action. -/
theorem run_patch_local_single_dispatch (checkers : PatchBlock → PatchBlock)
    (pb0 : PatchBlock) (policy : Option SelfDevPolicy)
    (diff_stats : Option DiffStatsData) (branch_name : Option String)
    (n : Int) :
    (run_patch_local checkers pb0 policy diff_stats branch_name n).2.2.length = 1
  ∧ (run_patch_local checkers pb0 policy diff_stats branch_name n).2.1 =
      route_after_checks (checkers pb0)
  ∧ (run_patch_local checkers pb0 policy diff_stats branch_name n).2.1.action =
      (route_after_checks (checkers pb0)).action := by
  unfold run_patch_local
  cases policy with
  | none =>
    cases diff_stats <;> simp only [] <;> split_ifs <;> simp
  | some pol =>
    cases diff_stats with
    | none =>
      simp only []
      split_ifs <;> simp
    | some diff =>
      simp only []
      split_ifs <;> simp

/-- **C8.** With the most recent `green-*` tag present but the archive for
its resolved commit missing, `main` exits with code `3` — nonzero, distinct
from the dirty-tree code `2` and the generic-failure code `1` — having
executed no state-changing command; and a dirty working tree without
`--no-clean-check` exits with its own distinct code `2`, also before any
mutation. -/
theorem rollback_missing_archive_distinct_code (env : GitEnv)
    (args : RollbackArgs)
    (hclean : (!args.no_clean_check && !env.working_tree_clean) = false)
    (htags : env.green_tags ≠ [])
    (harch : env.exists_file
      (archivePathFor env.repo_root (env.tag_sha (env.green_tags.headD ""))) = false) :
    ((rollback_main env args).1 = 3 ∧ (rollback_main env args).2 = [])
  ∧ (∀ (env2 : GitEnv) (args2 : RollbackArgs), args2.no_clean_check = false →
      env2.working_tree_clean = false →
      (rollback_main env2 args2).1 = 2 ∧ (rollback_main env2 args2).2 = [])
  ∧ ((3 : Int) ≠ 2 ∧ (3 : Int) ≠ 1 ∧ (3 : Int) ≠ 0 ∧
      (2 : Int) ≠ 1 ∧ (2 : Int) ≠ 0) := by
  refine ⟨?_, ?_, by norm_num⟩
  · unfold rollback_main
    rw [hclean]
    cases hg : env.green_tags with
    | nil => exact absurd hg htags
    | cons tag rest =>
      simp only []
      rw [show env.green_tags.headD "" = tag by rw [hg]; rfl] at harch
      rw [harch]
      simp
  · intro env2 args2 h1 h2
    unfold rollback_main
    rw [h1, h2]
    simp

/-- Witness for C8: a concrete environment with one green tag, a missing
archive and a clean tree exits 3 with no commands; a dirty tree exits 2. -/
theorem rollback_missing_archive_distinct_code_witness :
    ((rollback_main
        ⟨"/repo", true, ["green-20250101-abc1234"], fun _ => "abc", fun _ => "abc1234",
          fun _ => false⟩
        ⟨"merge", false, false⟩).1 = 3 ∧
      (rollback_main
        ⟨"/repo", true, ["green-20250101-abc1234"], fun _ => "abc", fun _ => "abc1234",
          fun _ => false⟩
        ⟨"merge", false, false⟩).2 = [])
  ∧ (∀ (env2 : GitEnv) (args2 : RollbackArgs), args2.no_clean_check = false →
      env2.working_tree_clean = false →
      (rollback_main env2 args2).1 = 2 ∧ (rollback_main env2 args2).2 = [])
  ∧ ((3 : Int) ≠ 2 ∧ (3 : Int) ≠ 1 ∧ (3 : Int) ≠ 0 ∧
      (2 : Int) ≠ 1 ∧ (2 : Int) ≠ 0) :=
  rollback_missing_archive_distinct_code
    ⟨"/repo", true, ["green-20250101-abc1234"], fun _ => "abc", fun _ => "abc1234",
      fun _ => false⟩
    ⟨"merge", false, false⟩ rfl (by simp) rfl

end MArchCode
